import Mathlib

/-!
Shallow embedding of the `cast_control` device-state adapter
(`src/cast_control/device/wrapper.py`) together with proofs about the
behaviour its specification describes.

Modelling conventions:
* Python `float` / `Decimal` values are modelled as `ℚ` (exact rationals);
  Python integers as `ℤ`.  Python's `round` (banker's rounding,
  round-half-to-even) is modelled explicitly by `pyRound`.
* `None` is modelled by `Option.none`; Python truthiness of strings and
  numbers is modelled by explicit `≠ ""` / `≠ 0` tests.
* Code that can raise an exception is modelled in `Except Unit`, where
  `Except.error ()` stands for an uncaught Python exception.
* URIs are modelled post-parse, as a `Uri` structure holding the fields
  `urlparse` would produce (`netloc`, `path`, and the query as a list of
  key/value pairs, which is what `parse_qs` consumes).  `str.casefold` is
  modelled as ASCII lowercasing of the components (`pyCasefold`).
-/

/-- Modelled from the spec: `US_IN_SEC` comes from `cast_control/base.py`,
which is not part of the sources; the spec fixes the conversion factor as
microseconds per second ("× 1,000,000"). -/
def US_IN_SEC : ℚ := 1000000

/-- From `chromecast_mpris/base.py`: `NO_DURATION = 0`. -/
def NO_DURATION : ℚ := 0

/-- From `chromecast_mpris/base.py`: `NO_DELTA = 0`. -/
def NO_DELTA : ℚ := 0

/-- External `mpris_server` constant: the zero playback position. -/
def BEGINNING : ℚ := 0

/-- From `wrapper.py`: `RESOLUTION = 1` (decimal places used by
`has_current_time`). -/
def RESOLUTION : ℤ := 1

/-- From `wrapper.py`: `MAX_TITLES = 3`. -/
def MAX_TITLES : ℕ := 3

/-- Modelled from the spec: `TITLE` is imported from the `cast_control`
package root, which does not define it in the given sources; the spec only
requires it to be "a fixed product name" used as the title fallback. -/
def TITLE : String := "Cast Control"

/-- Modelled from the spec: `LIGHT_THUMB` comes from `cast_control/base.py`
(missing from the sources); the spec describes it as one of "two fixed
variants (light/dark icon)" of the static default image path. -/
def LIGHT_THUMB : String := "light_icon_path"

/-- Modelled from the spec: `DEFAULT_THUMB` comes from `cast_control/base.py`
(missing from the sources); the other fixed default image path variant. -/
def DEFAULT_THUMB : String := "default_icon_path"

/-- Python's `round` on rationals: round to the nearest integer, ties to
the even integer (banker's rounding). -/
def pyRound (q : ℚ) : ℤ :=
  if q - ⌊q⌋ < 1/2 then ⌊q⌋
  else if 1/2 < q - ⌊q⌋ then ⌊q⌋ + 1
  else if Even ⌊q⌋ then ⌊q⌋ else ⌊q⌋ + 1

/-- ASCII model of `str.casefold`: lowercase every character. -/
def pyCasefold (s : String) : String :=
  String.mk (s.toList.map Char.toLower)

/-- Boolean substring test, modelling Python's `needle in hay`. -/
def strContains (hay needle : String) : Bool :=
  decide (needle.toList <:+: hay.toList)

/-- A parsed URI, holding the fields of `urllib.parse.urlparse` that the
adapter reads: the network location, the path, and the query string already
split into key/value pairs (the form `parse_qs` consumes). -/
structure Uri where
  netloc : String
  path : String
  query : List (String × String)
deriving DecidableEq, Repr

/-- From `wrapper.py`: `VIDEO_QS = 'v'`. -/
def VIDEO_QS : String := "v"

/-- From `wrapper.py` (`YoutubeUrl.long`). -/
def YoutubeUrl.long : String := "youtube.com"

/-- From `wrapper.py` (`YoutubeUrl.short`). -/
def YoutubeUrl.short : String := "youtu.be"

/-- From `wrapper.py` (`YoutubeUrl.watch`): the third member of the
`YoutubeUrl` enum, also iterated over by `is_youtube`. -/
def YoutubeUrl.watch : String := "https://youtube.com/watch?v="

/-- `urllib.parse.parse_qs(query)[key]`, modelled on the pre-split pair
list: the values bound to `key`, skipping blank values (which `parse_qs`
drops by default).  `parse_qs` never maps a key to an empty list, so a
`KeyError` on lookup corresponds exactly to this list being empty. -/
def parse_qs_get (query : List (String × String)) (key : String) : List String :=
  (query.filter fun p => p.1 == key && p.2 != "").map Prod.snd

/-- `wrapper.py` `is_youtube(uri)`: casefold the URI, parse it, and test
whether any member of the `YoutubeUrl` enum (`long`, `short`, `watch`) is a
substring of the netloc. -/
def is_youtube (u : Uri) : Bool :=
  let netloc := pyCasefold u.netloc
  [YoutubeUrl.long, YoutubeUrl.short, YoutubeUrl.watch].any
    fun url => strContains netloc url

/-- `wrapper.py` `get_content_id(uri)`.  The `[content_id] = qs[VIDEO_QS]`
unpacking raises (`KeyError` when `v` is absent, `ValueError` when it has
more than one value); that uncaught exception is `Except.error ()`.
The `match` on the netloc compares against the enum values exactly (no
casefolding there: only `is_youtube` casefolds its local copy). -/
def get_content_id (u : Uri) : Except Unit (Option String) :=
  if is_youtube u = false then
    .ok none
  else if u.netloc = YoutubeUrl.long then
    match parse_qs_get u.query VIDEO_QS with
    | [v] => .ok (some v)
    | _ => .error ()
  else if u.netloc = YoutubeUrl.short then
    .ok (some (u.path.drop 1))
  else
    .ok none

/-- The fields of pychromecast's `MediaStatus` that the adapter reads.
Numeric fields are `Option ℚ` (Python `float | None`); string fields are
`Option String`, with `""` as a possible (falsy) value.  `media_metadata`
is the embedded metadata map, modelled as an association list (Python
falsiness of the empty dict corresponds to the empty list); `images` is the
list of image URLs (the source unpacks the URL as the first component of
each image entry). -/
structure MediaStatus where
  duration : Option ℚ := none
  adjusted_current_time : Option ℚ := none
  current_time : Option ℚ := none
  title : Option String := none
  series_title : Option String := none
  artist : Option String := none
  album_name : Option String := none
  media_metadata : List (String × String) := []
  images : List String := []
  content_id : Option String := none
  track : Option ℤ := none
  playback_rate : Option ℚ := none
deriving DecidableEq, Repr

/-- The fields of pychromecast's `CastStatus` that the adapter reads. -/
structure CastStatus where
  volume_level : ℚ := 0
  volume_muted : Bool := false
  icon_url : Option String := none
deriving DecidableEq, Repr

/-- From `wrapper.py`: the `CachedIcon` named tuple.  `app_id` is stored
straight from `dev.app_id`, which may be `None`. -/
structure CachedIcon where
  url : String
  app_id : Option String
  title : String
deriving DecidableEq, Repr

/-- The adapter state: the borrowed device handle's observable fields
(`dev.app_id`, `dev.app_display_name`, the two status snapshots, the
YouTube sub-controller's `is_active` flag) together with the mutable
attributes the wrapper itself owns (`cached_icon`, `light_icon`,
`_longest_duration`).  `_longest_duration` is `Option ℚ`: `none` models
Python `None` (set by `on_new_status`), `some 0` the initial
`NO_DURATION`. -/
structure DeviceWrapper where
  app_id : Option String := none
  app_display_name : Option String := none
  cast_status : Option CastStatus := none
  media_status : Option MediaStatus := none
  yt_is_active : Bool := false
  cached_icon : Option CachedIcon := none
  light_icon : Bool := false
  longest_duration : Option ℚ := some NO_DURATION
deriving DecidableEq, Repr

/-- `TimeMixin.current_time`: `None` without media status, else
`status.adjusted_current_time or status.current_time` (Python `or`: the
adjusted time is used only when truthy, i.e. present and nonzero). -/
def current_time (s : DeviceWrapper) : Option ℚ :=
  match s.media_status with
  | none => none
  | some status =>
    match status.adjusted_current_time with
    | some a => if a ≠ 0 then some a else status.current_time
    | none => status.current_time

/-- `TimeMixin.get_current_position`: `BEGINNING` when the position is
falsy (`None` or `0`), else the position in seconds times `US_IN_SEC`,
rounded with Python's `round`. -/
def get_current_position (s : DeviceWrapper) : ℤ :=
  match current_time s with
  | none => 0
  | some position_secs =>
    if position_secs = 0 then 0
    else pyRound (position_secs * US_IN_SEC)

/-- `TimeMixin.get_duration`.  Returns the reported duration times
`US_IN_SEC` whenever the media status carries a non-`None` duration (the
source tests `duration is not None`, so a reported duration of `0` is used
directly).  Otherwise falls back to the longest-observed estimator,
which may store a new high-water mark; the updated adapter state is
returned alongside the result. -/
def get_duration (s : DeviceWrapper) : ℚ × DeviceWrapper :=
  let duration : Option ℚ :=
    match s.media_status with
    | some status => status.duration
    | none => none
  match duration with
  | some d => (d * US_IN_SEC, s)
  | none =>
    let current : ℚ := (get_current_position s : ℤ)
    match s.longest_duration with
    | some longest =>
      if longest ≠ 0 ∧ current < longest then (longest, s)
      else if current ≠ 0 then
        (current, { s with longest_duration := some current })
      else (NO_DURATION, s)
    | none =>
      if current ≠ 0 then (current, { s with longest_duration := some current })
      else (NO_DURATION, s)

/-- `TimeMixin.has_current_time`: the current time exists and still
exceeds `BEGINNING` after rounding to `RESOLUTION` (one) decimal place;
`round(x, 1) > 0` is equivalent to `pyRound (x * 10) > 0`. -/
def has_current_time (s : DeviceWrapper) : Bool :=
  match current_time s with
  | none => false
  | some ct => decide (0 < pyRound (ct * 10))

/-- `TimeMixin.on_new_status`: on every status notification, reset the
longest-observed duration to `None` when the current playback position
cannot be determined. -/
def on_new_status (s : DeviceWrapper) : DeviceWrapper :=
  if has_current_time s then s else { s with longest_duration := none }

/-- `TimeMixin.get_rate`: the device's playback rate when truthy, else the
external `mpris_server` default rate of `1`. -/
def get_rate (s : DeviceWrapper) : ℚ :=
  match s.media_status with
  | none => 1
  | some status =>
    match status.playback_rate with
    | some rate => if rate ≠ 0 then rate else 1
    | none => 1

/-- pychromecast's `MediaController.title` convenience accessor (external
collaborator): the media status's title when a status exists, else `None`. -/
def media_controller_title (s : DeviceWrapper) : Option String :=
  s.media_status.bind fun status => status.title

/-- `TitlesMixin.get_subtitle`: `None` without a media status, `None` when
the embedded metadata map is falsy (empty), else the truthy value of its
`subtitle` key. -/
def get_subtitle (s : DeviceWrapper) : Option String :=
  match s.media_status with
  | none => none
  | some status =>
    if status.media_metadata = [] then none
    else
      match (status.media_metadata.filter fun p => p.1 == "subtitle").head? with
      | some p => if p.2 ≠ "" then some p.2 else none
      | none => none

/-- One `if fragment := ...: titles.append(fragment)` block of
`TitlesMixin.titles`: append the fragment when it is truthy. -/
def append_title (titles : List String) (o : Option String) : List String :=
  match o with
  | some t => if t ≠ "" then titles ++ [t] else titles
  | none => titles

/-- `TitlesMixin.titles`, as the underlying list: append each fragment in
source order when it is truthy (series title, artist and album are only
read when a media status exists), fall back to the `TITLE` literal when no
fragment was collected, then truncate to `MAX_TITLES`. -/
def titles_list (s : DeviceWrapper) : List String :=
  let titles : List String := []
  let titles := append_title titles (media_controller_title s)
  let titles :=
    match s.media_status with
    | some status => append_title titles status.series_title
    | none => titles
  let titles := append_title titles (get_subtitle s)
  let titles :=
    match s.media_status with
    | some status => append_title (append_title titles status.artist) status.album_name
    | none => titles
  let titles := append_title titles s.app_display_name
  let titles := if titles = [] then titles ++ [TITLE] else titles
  titles.take MAX_TITLES

/-- The `Titles` named tuple `(title, artist, album)` built by
`Titles(*titles)`: the first three entries of the list, absent fields
defaulting to `None`. -/
def titles (s : DeviceWrapper) : Option String × Option String × Option String :=
  let l := titles_list s
  (l.get? 0, l.get? 1, l.get? 2)

/-- The primary title: `title, *_ = self.titles`, i.e. the head of the
(always nonempty) title list. -/
def primary_title (s : DeviceWrapper) : String :=
  (titles_list s).headD TITLE

/-- `IconsMixin._set_cached_icon`: a falsy (empty) URL clears the cache;
otherwise the cache stores the URL together with the current application
id and primary title. -/
def set_cached_icon (s : DeviceWrapper) (url : String) : DeviceWrapper :=
  if url = "" then { s with cached_icon := none }
  else { s with cached_icon := some ⟨url, s.app_id, primary_title s⟩ }

/-- `IconsMixin._can_use_cache`: a cached icon exists, its URL is truthy,
and both its application id and its title still match the current state. -/
def can_use_cache (s : DeviceWrapper) : Bool :=
  match s.cached_icon with
  | none => false
  | some icon =>
    icon.url != "" && icon.app_id == s.app_id && icon.title == primary_title s

/-- `IconsMixin._get_icon_from_device`.  The source reads
`self.media_status.images` without checking that a media status exists, so
an absent media status raises `AttributeError` (`Except.error ()`).
Otherwise: a nonempty image list yields its first URL (refreshing the
cache, which a falsy URL clears); else a truthy cast-status icon URL is
used (refreshing the cache); else the cached URL if the cache is still
valid; else `None`. -/
def get_icon_from_device (s : DeviceWrapper) :
    Except Unit (Option String × DeviceWrapper) :=
  match s.media_status with
  | none => .error ()
  | some status =>
    match status.images with
    | url :: _ => .ok (some url, set_cached_icon s url)
    | [] =>
      match s.cast_status with
      | some cast =>
        match cast.icon_url with
        | some url =>
          if url ≠ "" then .ok (some url, set_cached_icon s url)
          else
            if can_use_cache s then
              .ok (s.cached_icon.map CachedIcon.url, s)
            else .ok (none, s)
        | none =>
          if can_use_cache s then
            .ok (s.cached_icon.map CachedIcon.url, s)
          else .ok (none, s)
      | none =>
        if can_use_cache s then
          .ok (s.cached_icon.map CachedIcon.url, s)
        else .ok (none, s)

/-- `IconsMixin._get_default_icon`: one of the two static image paths,
chosen by the stored `light_icon` preference flag. -/
def get_default_icon (s : DeviceWrapper) : String :=
  if s.light_icon then LIGHT_THUMB else DEFAULT_THUMB

/-- `IconsMixin.get_art_url`: the device-derived icon when truthy, else
the static default icon; the error of `_get_icon_from_device` propagates. -/
def get_art_url (s : DeviceWrapper) : Except Unit (String × DeviceWrapper) :=
  match get_icon_from_device s with
  | .error e => .error e
  | .ok (icon, s1) =>
    match icon with
    | some url =>
      if url ≠ "" then .ok (url, s1) else .ok (get_default_icon s1, s1)
    | none => .ok (get_default_icon s1, s1)

/-- `IconsMixin.set_icon`. -/
def set_icon (s : DeviceWrapper) (lighter : Bool) : DeviceWrapper :=
  { s with light_icon := lighter }

/-- The device / sub-controller commands the dispatcher can issue, in
issue order. -/
inductive Command where
  | ytLaunch : Command
  | ytPlayVideo (video_id : String) : Command
  | ytAddToQueue (video_id : String) : Command
  | playMedia (uri : Uri) (mimetype : Option String) : Command
  | volumeUp (delta : ℚ) : Command
  | volumeDown (delta : ℚ) : Command
  | setVolumeMuted (muted : Bool) : Command
deriving DecidableEq, Repr

/-- `ControllersMixin._play_youtube`: launch the YouTube app first when the
sub-controller is not active, then play the video. -/
def play_youtube_cmds (s : DeviceWrapper) (video_id : String) : List Command :=
  if s.yt_is_active then [.ytPlayVideo video_id]
  else [.ytLaunch, .ytPlayVideo video_id]

/-- `ControllersMixin.open_uri`: when content-id extraction yields a truthy
id, queue-and-play it on the YouTube sub-controller; when it yields a falsy
value, guess a MIME type (`mimetypes.guess_type`, an external stdlib
function passed in as `guess_type`) and issue a generic `play_media`;
an exception raised by `get_content_id` propagates. -/
def open_uri (guess_type : Uri → Option String) (s : DeviceWrapper) (uri : Uri) :
    Except Unit (List Command) :=
  match get_content_id uri with
  | .error e => .error e
  | .ok (some video_id) =>
    if video_id ≠ "" then .ok (play_youtube_cmds s video_id)
    else .ok [.playMedia uri (guess_type uri)]
  | .ok none => .ok [.playMedia uri (guess_type uri)]

/-- `ControllersMixin.add_track(uri, after_track, set_as_current)`.  The
`after_track` argument is accepted but never read by the source. -/
def add_track (guess_type : Uri → Option String) (s : DeviceWrapper)
    (uri : Uri) (after_track : String) (set_as_current : Bool) :
    Except Unit (List Command) :=
  match get_content_id uri with
  | .error e => .error e
  | .ok found =>
    match found with
    | some video_id =>
      if video_id ≠ "" then
        if set_as_current then
          .ok [.ytAddToQueue video_id, .ytPlayVideo video_id]
        else .ok [.ytAddToQueue video_id]
      else
        if set_as_current then open_uri guess_type s uri
        else .ok []
    | none =>
      if set_as_current then open_uri guess_type s uri
      else .ok []

/-- `ControllersMixin._is_youtube_vid`: requires a truthy content id, an
active YouTube sub-controller, and a content id that is not itself an
`http` URL. -/
def is_youtube_vid (s : DeviceWrapper) (content_id : Option String) : Bool :=
  match content_id with
  | none => false
  | some cid =>
    if cid = "" then false
    else if s.yt_is_active = false then false
    else !(String.isPrefixOf "http" cid)

/-- `ControllersMixin._get_url`: the media status's content id, rewritten
into a YouTube watch URL when it is an active YouTube video id. -/
def get_url (s : DeviceWrapper) : Option String :=
  let content_id := s.media_status.bind fun status => status.content_id
  if is_youtube_vid s content_id then
    content_id.map fun cid => YoutubeUrl.watch ++ cid
  else content_id

/-- `VolumeMixin.get_volume`: absent without a cast status, else the exact
decimal volume level. -/
def get_volume (s : DeviceWrapper) : Option ℚ :=
  s.cast_status.map CastStatus.volume_level

/-- `VolumeMixin.set_volume`: no command without a readable current volume;
otherwise issue a single `volume_up` with the positive delta, a single
`volume_down` with the absolute delta when negative, and nothing when the
delta is exactly `NO_DELTA`. -/
def set_volume (s : DeviceWrapper) (val : ℚ) : List Command :=
  match get_volume s with
  | none => []
  | some curr =>
    let delta : ℚ := val - curr
    if NO_DELTA < delta then [.volumeUp delta]
    else if delta < NO_DELTA then [.volumeDown |delta|]
    else []

/-- `VolumeMixin.is_mute`: the cast status's mute flag, else `false`. -/
def is_mute (s : DeviceWrapper) : Bool :=
  match s.cast_status with
  | some cast => cast.volume_muted
  | none => false

/-- Modelled from the spec: `DEFAULT_DISC_NO` comes from
`cast_control/base.py`, which is missing from the sources; its exact value
is immaterial to the claims (the spec does not pin it down). -/
def DEFAULT_DISC_NO : ℤ := 1

/-- The protocol-facing metadata record built by `MetadataMixin.metadata`
(the `MetadataObj` of the external `mpris_server` library, restricted to
the fields the adapter fills in). -/
structure MetadataObj where
  track_id : String
  length : ℚ
  art_url : String
  url : Option String
  title : Option String
  artists : List String
  album : Option String
  album_artists : List String
  disc_number : ℤ
  track_number : Option ℤ
  comments : List String
deriving DecidableEq, Repr

/-- `MetadataMixin.metadata`.  `get_track_id` is an external `mpris_server`
function deriving a D-Bus track id from the title; it is passed in as a
parameter.  `get_duration` runs before `get_art_url` (keyword-argument
evaluation order), threading the adapter state; the `AttributeError`
raised by `get_art_url` when no media status exists propagates. -/
def metadata (get_track_id : Option String → String) (s : DeviceWrapper) :
    Except Unit (MetadataObj × DeviceWrapper) :=
  let (title, artist, album) := titles s
  let dbus_name := get_track_id title
  let artists : List String :=
    match artist with
    | some a => if a ≠ "" then [a] else []
    | none => []
  let comments : List String := []
  let track_no : Option ℤ := s.media_status.bind fun status => status.track
  let (length, s1) := get_duration s
  match get_art_url s1 with
  | .error e => .error e
  | .ok (art_url, s2) =>
    .ok (⟨dbus_name, length, art_url, get_url s2, title, artists, album,
          artists, DEFAULT_DISC_NO, track_no, comments⟩, s2)

/-- The contribution of one title fragment: the singleton of its value when
truthy, nothing otherwise. -/
def frag_filter (o : Option String) : List String :=
  match o with
  | some t => if t = "" then [] else [t]
  | none => []

/-- The title list as the claim describes it: the six sources in priority
order, absent (falsy) fragments skipped without padding, a single fixed
product-name literal when every source is absent, truncated to at most
three entries. -/
def titles_claim_spec (frags : List (Option String)) : List String :=
  let present := frags.filterMap fun o => o.bind fun t => if t = "" then none else some t
  if present = [] then [TITLE] else present.take MAX_TITLES

/-- The claim's "longest is set and exceeds the current position". -/
def longest_usable (s : DeviceWrapper) : Prop :=
  ∃ l, s.longest_duration = some l ∧ l ≠ 0 ∧ ((get_current_position s : ℤ) : ℚ) < l

/-- A media status carrying only a position report (no device-reported
duration), as pushed by the C2 experiment. -/
def mk_time_status (p : ℚ) : MediaStatus :=
  { current_time := some p }

/-- Replace the adapter's media status with a bare position report. -/
def push_position (s : DeviceWrapper) (p : ℚ) : DeviceWrapper :=
  { s with media_status := some (mk_time_status p) }

/-- Deliver a sequence of position reports: each report replaces the media
status, fires the `on_new_status` callback, and is followed by a
`get_duration` query whose result is collected and whose state update is
kept. -/
def run_reports : DeviceWrapper → List ℚ → List ℚ
  | _, [] => []
  | s, p :: ps =>
    let r := get_duration (on_new_status (push_position s p))
    r.1 :: run_reports r.2 ps

/-- A freshly constructed adapter: no statuses yet, empty icon cache, the
longest-observed duration initialised to `NO_DURATION`. -/
def fresh_state : DeviceWrapper := {}

/-- The art-URL resolver as the claim describes it, for a state whose
media status is present: first image URL (refreshing the cache), else the
cast-status application icon URL (refreshing the cache), else the cached
URL provided its `(app_id, title)` pair still matches the current state,
else the static default icon. -/
def art_url_claim_resolver (s : DeviceWrapper) (status : MediaStatus) :
    String × DeviceWrapper :=
  let refresh := fun url =>
    { s with cached_icon := some ⟨url, s.app_id, primary_title s⟩ }
  match status.images with
  | url :: _ => (url, refresh url)
  | [] =>
    match s.cast_status.bind CastStatus.icon_url with
    | some url => (url, refresh url)
    | none =>
      match s.cached_icon with
      | some icon =>
        if icon.app_id = s.app_id ∧ icon.title = primary_title s then (icon.url, s)
        else (get_default_icon s, s)
      | none => (get_default_icon s, s)

/-- Well-formedness of the URLs in a state: every URL the device or the
cache holds is a nonempty string (a degenerate empty-string URL is
indistinguishable from absence under Python truthiness). -/
def icon_urls_wf (s : DeviceWrapper) (status : MediaStatus) : Bool :=
  status.images.all (fun url => url != "") &&
  (match s.cast_status with
   | some cast => cast.icon_url != some ""
   | none => true) &&
  (match s.cached_icon with
   | some icon => icon.url != ""
   | none => true)

/-- C1 counterexample state: the device reports a zero (present) duration
while the stored longest-observed value is `5000000` µs and the playback
position is 3 s. -/
def c1_cex_state : DeviceWrapper :=
  { media_status := some { duration := some 0, current_time := some 3 },
    longest_duration := some 5000000 }

/-- C1 witness state: the device reports a 7 s duration. -/
def c1_wit_state : DeviceWrapper :=
  { media_status := some { duration := some 7, current_time := some 3 },
    longest_duration := some 123 }

/-- C2 witness state for the reset clause: no media status, stale
high-water mark. -/
def c2_reset_state : DeviceWrapper :=
  { media_status := none, longest_duration := some 99000000 }

/-- C3 failing input: the device has not yet reported a media status. -/
def c3_state : DeviceWrapper :=
  { media_status := none,
    cast_status := some { icon_url := some "http://device/icon.png" },
    app_id := some "CC1AD845" }

/-- C4 counterexample input: long-form host, no `v` query value. -/
def c4_cex_uri : Uri := ⟨"youtube.com", "/watch", []⟩

/-- C4 witness input: long-form host, two `v` query values. -/
def c4_wit_uri : Uri := ⟨"youtube.com", "/watch", [("v", "a"), ("v", "b")]⟩

/-- A default adapter state used when only commands matter. -/
def c4_state : DeviceWrapper := {}

/-- C6 counterexample input: the netloc strictly contains `youtube.com`
but is a different host. -/
def c6_cex_uri : Uri := ⟨"xyoutube.comz", "/a", []⟩

/-- C7 witness scenario: an icon cached under application id `A` while the
application has changed to `B` with the same primary title, no media
images, no cast icon. -/
def c7_scenario : DeviceWrapper :=
  { app_id := some "B",
    media_status := some { title := some "Song1" },
    cast_status := none,
    cached_icon := some ⟨"u1", some "A", "Song1"⟩ }

/-- C9 witness state: current volume one half. -/
def c9_state : DeviceWrapper :=
  { cast_status := some { volume_level := 1/2 } }

example : get_content_id ⟨"youtube.com", "/watch", [("v", "abc123")]⟩ = .ok (some "abc123") := rfl

example : get_content_id ⟨"youtu.be", "/abc123", []⟩ = .ok (some "abc123") := rfl

example : get_content_id ⟨"example.com", "/abc123", []⟩ = .ok none := rfl

example : get_content_id ⟨"youtube.com", "/watch", [("v", "a"), ("v", "b")]⟩ = .error () := rfl

example : is_youtube ⟨"xyoutube.comz", "/a", []⟩ = true := by decide

lemma floor_le_pyRound (q : ℚ) : ⌊q⌋ ≤ pyRound q := by
  unfold pyRound
  split_ifs <;> omega

lemma pyRound_le_floor_add_one (q : ℚ) : pyRound q ≤ ⌊q⌋ + 1 := by
  unfold pyRound
  split_ifs <;> omega

lemma pyRound_mono {p q : ℚ} (h : p ≤ q) : pyRound p ≤ pyRound q := by
  rcases lt_or_eq_of_le (Int.floor_le_floor h) with hf | hf
  · calc pyRound p ≤ ⌊p⌋ + 1 := pyRound_le_floor_add_one p
      _ ≤ ⌊q⌋ := by omega
      _ ≤ pyRound q := floor_le_pyRound q
  · unfold pyRound
    rw [← hf]
    have hfr : p - ((⌊p⌋ : ℤ) : ℚ) ≤ q - ((⌊p⌋ : ℤ) : ℚ) := by linarith
    split_ifs <;> first | omega | linarith

lemma pyRound_nonneg {q : ℚ} (h : 0 ≤ q) : 0 ≤ pyRound q :=
  le_trans (Int.floor_nonneg.mpr h) (floor_le_pyRound q)

lemma is_youtube_of_long {u : Uri} (h : u.netloc = YoutubeUrl.long) :
    is_youtube u = true := by
  simp only [is_youtube, h]
  decide

lemma is_youtube_of_short {u : Uri} (h : u.netloc = YoutubeUrl.short) :
    is_youtube u = true := by
  simp only [is_youtube, h]
  decide

lemma get_content_id_long_error {u : Uri} (hn : u.netloc = YoutubeUrl.long)
    (hv : (parse_qs_get u.query VIDEO_QS).length ≠ 1) :
    get_content_id u = .error () := by
  unfold get_content_id
  rw [is_youtube_of_long hn, hn]
  simp only [Bool.true_eq_false, if_false, if_pos rfl]
  rcases hq : parse_qs_get u.query VIDEO_QS with _ | ⟨a, _ | ⟨b, l⟩⟩
  · rfl
  · rw [hq] at hv
    simp at hv
  · rfl

/-- Claim C10: `add_track` never reads its `after_track` argument — two
calls agreeing on everything else issue identical command sequences. -/
theorem add_track_independent_of_after_track
    (guess_type : Uri → Option String) (s : DeviceWrapper) (uri : Uri)
    (after1 after2 : String) (set_as_current : Bool) :
    add_track guess_type s uri after1 set_as_current =
      add_track guess_type s uri after2 set_as_current := rfl

/-- Claim C9: with a readable current volume, `set_volume` issues exactly
one `volume_up` carrying the exact decimal delta when the target exceeds
the current volume, exactly one `volume_down` carrying the absolute delta
when below, and no command when the delta is exactly zero. -/
theorem set_volume_exact_delta (s : DeviceWrapper) (cast : CastStatus) (val : ℚ)
    (h : s.cast_status = some cast) :
    set_volume s val =
      (if cast.volume_level < val then [Command.volumeUp (val - cast.volume_level)]
       else if val < cast.volume_level then
         [Command.volumeDown (cast.volume_level - val)]
       else []) := by
  unfold set_volume get_volume NO_DELTA
  rw [h]
  simp only [Option.map_some']
  have habs : val - cast.volume_level < 0 → |val - cast.volume_level| = cast.volume_level - val := by
    intro hneg
    rw [abs_of_neg hneg]
    ring
  split_ifs with h1 h2 h3 h4 h5 <;> first
    | rfl
    | (exfalso; linarith)
    | (rw [habs (by linarith)])

theorem set_volume_exact_delta_witness :
    set_volume c9_state (3/4) = [Command.volumeUp (1/4)] ∧
    set_volume c9_state (1/4) = [Command.volumeDown (1/4)] ∧
    set_volume c9_state (1/2) = [] := by
  refine ⟨?_, ?_, ?_⟩ <;>
    rw [set_volume_exact_delta c9_state { volume_level := 1/2 } _ rfl] <;> norm_num

/-- Claim C5: `get_content_id` returns the single `v` query value for the
long-form host (raising, not silently tolerating, zero or multiple
values), the path stripped of its leading separator for the short-form
host, and absent for every other host; the three concrete examples of the
claim behave as stated. -/
theorem get_content_id_spec :
    (∀ u : Uri, ∀ v : String, u.netloc = YoutubeUrl.long →
      parse_qs_get u.query VIDEO_QS = [v] → get_content_id u = .ok (some v)) ∧
    (∀ u : Uri, u.netloc = YoutubeUrl.long →
      (parse_qs_get u.query VIDEO_QS).length ≠ 1 → get_content_id u = .error ()) ∧
    (∀ u : Uri, u.netloc = YoutubeUrl.short →
      get_content_id u = .ok (some (u.path.drop 1))) ∧
    (∀ u : Uri, u.netloc ≠ YoutubeUrl.long → u.netloc ≠ YoutubeUrl.short →
      get_content_id u = .ok none) ∧
    get_content_id ⟨"youtube.com", "/watch", [("v", "abc123")]⟩ = .ok (some "abc123") ∧
    get_content_id ⟨"youtu.be", "/abc123", []⟩ = .ok (some "abc123") ∧
    get_content_id ⟨"example.com", "/abc123", []⟩ = .ok none := by
  refine ⟨?_, ?_, ?_, ?_, rfl, rfl, rfl⟩
  · intro u v hn hv
    unfold get_content_id
    rw [is_youtube_of_long hn, hn, hv]
    simp
  · exact fun u hn hv => get_content_id_long_error hn hv
  · intro u hn
    unfold get_content_id
    rw [is_youtube_of_short hn, hn]
    have : YoutubeUrl.short ≠ YoutubeUrl.long := by decide
    simp [this]
  · intro u hl hs
    unfold get_content_id
    rcases hy : is_youtube u with _ | _
    · simp
    · simp [hl, hs]

theorem get_content_id_spec_witness :
    get_content_id ⟨"youtu.be", "/xyz9", []⟩ = .ok (some "xyz9") := by
  have h := get_content_id_spec.2.2.1 ⟨"youtu.be", "/xyz9", []⟩ rfl
  simpa using h

/-- Claim C4 counterexample: for a long-form-host URI with zero `v` query
values, `open_uri` does crash (the `KeyError` from content-id extraction
propagates) instead of falling through to generic playback. -/
theorem open_uri_malformed_query_cex :
    open_uri (fun _ => none) c4_state c4_cex_uri = .error () := rfl

/-- Claim C4 (amended): for every URI with the long-form host whose query
carries zero or more-than-one `v` values, `open_uri` propagates the
extraction exception (it crashes); it does not fall through to generic
playback. -/
theorem open_uri_malformed_query_raises
    (guess_type : Uri → Option String) (s : DeviceWrapper) (u : Uri)
    (hn : u.netloc = YoutubeUrl.long)
    (hv : (parse_qs_get u.query VIDEO_QS).length ≠ 1) :
    open_uri guess_type s u = .error () := by
  unfold open_uri
  rw [get_content_id_long_error hn hv]

theorem open_uri_malformed_query_raises_witness :
    open_uri (fun _ => none) c4_state c4_wit_uri = .error () :=
  open_uri_malformed_query_raises (fun _ => none) c4_state c4_wit_uri rfl (by decide)

/-- Claim C6 counterexample: `is_youtube` answers `true` for a URI whose
host merely contains `youtube.com` as a substring and is not, even
case-insensitively, one of the two service domains. -/
theorem is_youtube_substring_cex :
    is_youtube c6_cex_uri = true ∧
    pyCasefold c6_cex_uri.netloc ≠ YoutubeUrl.long ∧
    pyCasefold c6_cex_uri.netloc ≠ YoutubeUrl.short := by
  refine ⟨by decide, by decide, by decide⟩

lemma long_infix_of_watch_infix {l : List Char}
    (h : YoutubeUrl.watch.toList <:+: l) : YoutubeUrl.long.toList <:+: l := by
  have hlw : YoutubeUrl.long.toList <:+: YoutubeUrl.watch.toList := by decide
  exact hlw.trans h

/-- Claim C6 (amended): `is_youtube` answers `true` exactly when the
casefolded netloc contains one of the two service domains as a substring
(the enum's third, `watch`-URL member is subsumed by the long-form domain,
which it contains). -/
theorem is_youtube_amended (u : Uri) :
    is_youtube u =
      (strContains (pyCasefold u.netloc) YoutubeUrl.long ||
       strContains (pyCasefold u.netloc) YoutubeUrl.short) := by
  unfold is_youtube
  simp only [List.any_cons, List.any_nil, Bool.or_false]
  rcases hw : strContains (pyCasefold u.netloc) YoutubeUrl.watch with _ | _
  · simp
  · have hl : strContains (pyCasefold u.netloc) YoutubeUrl.long = true := by
      unfold strContains at hw ⊢
      rw [decide_eq_true_iff] at hw ⊢
      exact long_infix_of_watch_infix hw
    simp [hl]

/-- Claim C3: the claim is right and the code is wrong.  When the device
has not yet reported a media status, `_get_icon_from_device` dereferences
`self.media_status.images` on `None`, so `get_art_url` (and `metadata`,
which calls it) raise `AttributeError` instead of degrading to the default
icon, contradicting the never-raise contract every sibling projection
follows. -/
theorem get_art_url_missing_media_status_raises :
    get_art_url c3_state = .error () ∧
    ∀ get_track_id : Option String → String,
      metadata get_track_id c3_state = .error () := by
  refine ⟨rfl, fun get_track_id => rfl⟩

/-- Claim C1 counterexample: with a present-but-zero reported duration
(`media_status.duration == 0`), a stored longest-observed value of
5000000 µs exceeding the 3000000 µs current position, `get_duration`
returns `0` — it uses the zero duration directly instead of consulting the
estimator as the claim requires for "duration is zero". -/
theorem get_duration_zero_reported_cex :
    c1_cex_state.media_status.bind MediaStatus.duration = some 0 ∧
    c1_cex_state.longest_duration = some 5000000 ∧
    ((get_current_position c1_cex_state : ℤ) : ℚ) < 5000000 ∧
    (get_duration c1_cex_state).1 = 0 ∧
    (get_duration c1_cex_state).1 ≠ 5000000 := by
  have hval : (get_duration c1_cex_state).1 = 0 := by
    simp [get_duration, c1_cex_state, US_IN_SEC]
  refine ⟨rfl, rfl, by norm_num [get_current_position, current_time, c1_cex_state,
    US_IN_SEC, pyRound], hval, by rw [hval]; norm_num⟩

/-- Claim C1 (amended): `get_duration` uses a device-reported duration
directly (× `US_IN_SEC`, ignoring and not touching the estimator) whenever
the duration is present — including a reported duration of exactly zero,
which the source's `duration is not None` test also accepts; only when the
duration is absent does it return the stored longest-observed value (when
set and exceeding the current position), else the nonzero current position
(storing it as the new longest), else 0. -/
theorem get_duration_amended (s : DeviceWrapper) :
    (∀ d, s.media_status.bind MediaStatus.duration = some d →
      get_duration s = (d * US_IN_SEC, s)) ∧
    (s.media_status.bind MediaStatus.duration = none →
      (∀ l, s.longest_duration = some l → l ≠ 0 →
        ((get_current_position s : ℤ) : ℚ) < l → get_duration s = (l, s)) ∧
      (¬ longest_usable s → ((get_current_position s : ℤ) : ℚ) ≠ 0 →
        get_duration s =
          (((get_current_position s : ℤ) : ℚ),
            { s with longest_duration := some ((get_current_position s : ℤ) : ℚ) })) ∧
      (¬ longest_usable s → ((get_current_position s : ℤ) : ℚ) = 0 →
        get_duration s = (NO_DURATION, s))) := by
  constructor
  · intro d hd
    rcases hms : s.media_status with _ | status
    · rw [hms] at hd
      simp at hd
    · rw [hms] at hd
      have hd2 : status.duration = some d := by simpa using hd
      simp [get_duration, hms, hd2]
  · intro hd
    have hdur : (match s.media_status with
        | some status => status.duration
        | none => none) = (none : Option ℚ) := by
      rcases hms : s.media_status with _ | status
      · rfl
      · rw [hms] at hd
        simpa using hd
    refine ⟨?_, ?_, ?_⟩
    · intro l hl hl0 hlt
      simp only [get_duration, hdur, hl]
      rw [if_pos ⟨hl0, hlt⟩]
    · intro hnu hc
      rcases hl : s.longest_duration with _ | l
      · simp only [get_duration, hdur, hl]
        rw [if_pos hc]
      · have hno : ¬ (l ≠ 0 ∧ ((get_current_position s : ℤ) : ℚ) < l) := by
          intro h2
          exact hnu ⟨l, hl, h2.1, h2.2⟩
        simp only [get_duration, hdur, hl]
        rw [if_neg hno, if_pos hc]
    · intro hnu hc
      rcases hl : s.longest_duration with _ | l
      · simp only [get_duration, hdur, hl]
        rw [if_neg (by simpa using hc)]
      · have hno : ¬ (l ≠ 0 ∧ ((get_current_position s : ℤ) : ℚ) < l) := by
          intro h2
          exact hnu ⟨l, hl, h2.1, h2.2⟩
        simp only [get_duration, hdur, hl]
        rw [if_neg hno, if_neg (by simpa using hc)]

theorem get_duration_amended_witness :
    get_duration c1_wit_state = (7000000, c1_wit_state) := by
  have h := (get_duration_amended c1_wit_state).1 7 rfl
  rw [h]
  norm_num [US_IN_SEC]

lemma pyRound_intCast (n : ℤ) : pyRound ((n : ℤ) : ℚ) = n := by
  norm_num [pyRound]

lemma current_time_push (s : DeviceWrapper) (p : ℚ) :
    current_time (push_position s p) = some p := rfl

lemma get_current_position_push (s : DeviceWrapper) (p : ℚ) (hp : p ≠ 0) :
    get_current_position (push_position s p) = pyRound (p * US_IN_SEC) := by
  simp [get_current_position, current_time_push, hp]

lemma on_new_status_media (s : DeviceWrapper) :
    (on_new_status s).media_status = s.media_status := by
  unfold on_new_status
  split_ifs <;> rfl

lemma on_new_status_longest {s : DeviceWrapper} {l : ℚ}
    (h : (on_new_status s).longest_duration = some l) :
    s.longest_duration = some l := by
  unfold on_new_status at h
  split_ifs at h with hct
  exact h

lemma get_current_position_congr {s1 s2 : DeviceWrapper}
    (h : s1.media_status = s2.media_status) :
    get_current_position s1 = get_current_position s2 := by
  unfold get_current_position current_time
  rw [h]

lemma get_duration_no_dur (s2 : DeviceWrapper) (p : ℚ) (hp : p ≠ 0)
    (hms : s2.media_status = some (mk_time_status p))
    (hle : ∀ l, s2.longest_duration = some l → l ≤ ((pyRound (p * US_IN_SEC) : ℤ) : ℚ)) :
    (get_duration s2).1 = ((pyRound (p * US_IN_SEC) : ℤ) : ℚ) ∧
    ∀ l, (get_duration s2).2.longest_duration = some l →
      l ≤ ((pyRound (p * US_IN_SEC) : ℤ) : ℚ) := by
  have hcur : get_current_position s2 = pyRound (p * US_IN_SEC) := by
    simp [get_current_position, current_time, hms, mk_time_status, hp]
  have hgd : get_duration s2 =
      (((pyRound (p * US_IN_SEC) : ℤ) : ℚ),
        if ((pyRound (p * US_IN_SEC) : ℤ) : ℚ) = 0 then s2
        else { s2 with longest_duration := some ((pyRound (p * US_IN_SEC) : ℤ) : ℚ) }) := by
    by_cases hcz : ((pyRound (p * US_IN_SEC) : ℤ) : ℚ) = 0
    · rcases hl : s2.longest_duration with _ | l
      · simp [get_duration, hms, mk_time_status, hl, hcur, hcz, NO_DURATION]
      · have hl0 : l ≤ (0 : ℚ) := hcz ▸ hle l hl
        simp only [get_duration, hms, mk_time_status, hl, hcur, hcz, NO_DURATION]
        simp [hcz]
        intro h1 h2
        linarith
    · rcases hl : s2.longest_duration with _ | l
      · simp [get_duration, hms, mk_time_status, hl, hcur, hcz]
      · have hno : ¬ (l ≠ 0 ∧ ((pyRound (p * US_IN_SEC) : ℤ) : ℚ) < l) := by
          intro h2
          exact absurd (hle l hl) (not_le.mpr h2.2)
        simp [get_duration, hms, mk_time_status, hl, hcur, hcz, hno]
  rw [hgd]
  refine ⟨rfl, ?_⟩
  intro l hl
  by_cases hcz : ((pyRound (p * US_IN_SEC) : ℤ) : ℚ) = 0
  · rw [if_pos hcz] at hl
    exact hle l hl
  · rw [if_neg hcz] at hl
    simp only at hl
    exact le_of_eq (Option.some.inj hl).symm

lemma report_step (s : DeviceWrapper) (p : ℚ) (hp : 0 < p)
    (hle : ∀ l, s.longest_duration = some l → l ≤ ((pyRound (p * US_IN_SEC) : ℤ) : ℚ)) :
    (get_duration (on_new_status (push_position s p))).1 =
      ((pyRound (p * US_IN_SEC) : ℤ) : ℚ) ∧
    ∀ l, (get_duration (on_new_status (push_position s p))).2.longest_duration = some l →
      l ≤ ((pyRound (p * US_IN_SEC) : ℤ) : ℚ) := by
  apply get_duration_no_dur _ p (ne_of_gt hp)
  · rw [on_new_status_media]
    rfl
  · intro l hl
    have h2 := on_new_status_longest hl
    exact hle l h2

/-- Claim C2: while positions rise (device duration absent), `get_duration`
after each report returns the maximum position seen so far in rounded
microseconds; and every notification without a determinable position
(no status, or a position that rounds to zero at one-decimal resolution)
resets the high-water mark to unknown, after which `get_duration` (with
duration still absent) returns only the fresh current position — never the
previous session's high-water mark. -/
theorem longest_duration_monotone_reset :
    (∀ p1 p2 p3 : ℚ, 0 < p1 → p1 < p2 → p2 < p3 →
      run_reports fresh_state [p1, p2, p3] =
        [((pyRound (p1 * US_IN_SEC) : ℤ) : ℚ),
         max ((pyRound (p1 * US_IN_SEC) : ℤ) : ℚ) ((pyRound (p2 * US_IN_SEC) : ℤ) : ℚ),
         max (max ((pyRound (p1 * US_IN_SEC) : ℤ) : ℚ) ((pyRound (p2 * US_IN_SEC) : ℤ) : ℚ))
           ((pyRound (p3 * US_IN_SEC) : ℤ) : ℚ)]) ∧
    (∀ s : DeviceWrapper, has_current_time s = false →
      (on_new_status s).longest_duration = none ∧
      (s.media_status.bind MediaStatus.duration = none →
        (get_duration (on_new_status s)).1 = ((get_current_position s : ℤ) : ℚ))) := by
  constructor
  · intro p1 p2 p3 h1 h12 h23
    have hU : (0 : ℚ) < US_IN_SEC := by norm_num [US_IN_SEC]
    have hc12 : ((pyRound (p1 * US_IN_SEC) : ℤ) : ℚ) ≤ ((pyRound (p2 * US_IN_SEC) : ℤ) : ℚ) := by
      exact_mod_cast pyRound_mono (by nlinarith)
    have hc23 : ((pyRound (p2 * US_IN_SEC) : ℤ) : ℚ) ≤ ((pyRound (p3 * US_IN_SEC) : ℤ) : ℚ) := by
      exact_mod_cast pyRound_mono (by nlinarith)
    have step1 := report_step fresh_state p1 h1 (fun l hl => by
      have hl2 : (0 : ℚ) = l := by
        simpa [fresh_state, NO_DURATION] using hl
      rw [← hl2]
      exact_mod_cast pyRound_nonneg (by positivity))
    have step2 := report_step
      (get_duration (on_new_status (push_position fresh_state p1))).2 p2
      (lt_trans h1 h12) (fun l hl => le_trans (step1.2 l hl) hc12)
    have step3 := report_step
      (get_duration (on_new_status (push_position
        (get_duration (on_new_status (push_position fresh_state p1))).2 p2))).2 p3
      (lt_trans (lt_trans h1 h12) h23) (fun l hl => le_trans (step2.2 l hl) hc23)
    simp only [run_reports]
    rw [step1.1, step2.1, step3.1, max_eq_right hc12, max_eq_right hc23]
  · intro s hct
    have hL : (on_new_status s).longest_duration = none := by
      simp [on_new_status, hct]
    refine ⟨hL, ?_⟩
    intro hdur
    have hmed := on_new_status_media s
    have hdur2 : (match (on_new_status s).media_status with
        | some status => status.duration
        | none => none) = (none : Option ℚ) := by
      rw [hmed]
      rcases hms : s.media_status with _ | status
      · rfl
      · rw [hms] at hdur
        simpa using hdur
    have hcur : get_current_position (on_new_status s) = get_current_position s :=
      get_current_position_congr hmed
    by_cases hc : ((get_current_position s : ℤ) : ℚ) = 0
    · simp only [get_duration, hdur2, hL, hcur]
      rw [if_neg (by simpa using hc), hc]
      rfl
    · simp only [get_duration, hdur2, hL, hcur]
      rw [if_pos hc]

theorem longest_duration_monotone_reset_witness :
    run_reports fresh_state [1, 2, 3] = [1000000, 2000000, 3000000] ∧
    has_current_time c2_reset_state = false ∧
    c2_reset_state.longest_duration = some 99000000 ∧
    (on_new_status c2_reset_state).longest_duration = none ∧
    (get_duration (on_new_status c2_reset_state)).1 = 0 := by
  have h1 := longest_duration_monotone_reset.1 1 2 3 (by norm_num) (by norm_num) (by norm_num)
  have h2 := longest_duration_monotone_reset.2 c2_reset_state rfl
  refine ⟨?_, rfl, rfl, h2.1, ?_⟩
  · rw [h1]
    have e1 : (1 : ℚ) * US_IN_SEC = ((1000000 : ℤ) : ℚ) := by norm_num [US_IN_SEC]
    have e2 : (2 : ℚ) * US_IN_SEC = ((2000000 : ℤ) : ℚ) := by norm_num [US_IN_SEC]
    have e3 : (3 : ℚ) * US_IN_SEC = ((3000000 : ℤ) : ℚ) := by norm_num [US_IN_SEC]
    rw [e1, e2, e3, pyRound_intCast, pyRound_intCast, pyRound_intCast]
    norm_num
  · rw [h2.2 rfl]
    rfl

/-- Claim C7: with a media status present (the crash of C3 aside) and
well-formed (nonempty) URLs, `get_art_url` follows exactly the claim's
priority order — first media image URL refreshing the cache, else
cast-status app icon URL refreshing the cache, else the cached URL only
while both its application id and title still match the current state,
else the static default icon. -/
theorem get_art_url_priority_and_cache (s : DeviceWrapper) (status : MediaStatus)
    (hms : s.media_status = some status)
    (hwf : icon_urls_wf s status = true) :
    get_art_url s = .ok (art_url_claim_resolver s status) := by
  simp only [icon_urls_wf, Bool.and_eq_true, List.all_eq_true, bne_iff_ne, ne_eq,
    decide_eq_true_eq] at hwf
  obtain ⟨⟨hwf1, hwf2⟩, hwf3⟩ := hwf
  have hicon : ∀ r, get_icon_from_device s = .ok r →
      get_art_url s = (match r.1 with
        | some url => if url ≠ "" then .ok (url, r.2) else .ok (get_default_icon r.2, r.2)
        | none => .ok (get_default_icon r.2, r.2)) := by
    intro r hr
    unfold get_art_url
    rw [hr]
  rcases himg : status.images with _ | ⟨u, rest⟩
  · rcases hcs : s.cast_status with _ | cast
    · rcases hci : s.cached_icon with _ | icon
      · have hcu : can_use_cache s = false := by
          simp [can_use_cache, hci]
        have hdev : get_icon_from_device s = .ok (none, s) := by
          simp [get_icon_from_device, hms, himg, hcs, hcu]
        rw [hicon _ hdev]
        simp [art_url_claim_resolver, himg, hcs, hci]
      · rw [hci] at hwf3
        simp only [bne_iff_ne, ne_eq] at hwf3
        by_cases hmatch : icon.app_id = s.app_id ∧ icon.title = primary_title s
        · have hcu : can_use_cache s = true := by
            simp [can_use_cache, hci, hwf3, hmatch.1, hmatch.2]
          have hdev : get_icon_from_device s = .ok (some icon.url, s) := by
            simp [get_icon_from_device, hms, himg, hcs, hcu, hci]
          rw [hicon _ hdev]
          simp only [ne_eq, hwf3, not_false_iff, if_true]
          simp [art_url_claim_resolver, himg, hcs, hci, hmatch, hwf3]
        · have hcu : can_use_cache s = false := by
            simp only [can_use_cache, hci]
            rw [not_and_or] at hmatch
            rcases hmatch with hm | hm <;> simp [hm, hwf3]
          have hdev : get_icon_from_device s = .ok (none, s) := by
            simp [get_icon_from_device, hms, himg, hcs, hcu]
          rw [hicon _ hdev]
          simp [art_url_claim_resolver, himg, hcs, hci, hmatch]
    · rw [hcs] at hwf2
      simp only [ne_eq] at hwf2
      rcases hiu : cast.icon_url with _ | url
      · rcases hci : s.cached_icon with _ | icon
        · have hcu : can_use_cache s = false := by
            simp [can_use_cache, hci]
          have hdev : get_icon_from_device s = .ok (none, s) := by
            simp [get_icon_from_device, hms, himg, hcs, hiu, hcu]
          rw [hicon _ hdev]
          simp [art_url_claim_resolver, himg, hcs, hiu, hci]
        · rw [hci] at hwf3
          simp only [bne_iff_ne, ne_eq] at hwf3
          by_cases hmatch : icon.app_id = s.app_id ∧ icon.title = primary_title s
          · have hcu : can_use_cache s = true := by
              simp [can_use_cache, hci, hwf3, hmatch.1, hmatch.2]
            have hdev : get_icon_from_device s = .ok (some icon.url, s) := by
              simp [get_icon_from_device, hms, himg, hcs, hiu, hcu, hci]
            rw [hicon _ hdev]
            simp only [ne_eq, hwf3, not_false_iff, if_true]
            simp [art_url_claim_resolver, himg, hcs, hiu, hci, hmatch, hwf3]
          · have hcu : can_use_cache s = false := by
              simp only [can_use_cache, hci]
              rw [not_and_or] at hmatch
              rcases hmatch with hm | hm <;> simp [hm, hwf3]
            have hdev : get_icon_from_device s = .ok (none, s) := by
              simp [get_icon_from_device, hms, himg, hcs, hiu, hcu]
            rw [hicon _ hdev]
            simp [art_url_claim_resolver, himg, hcs, hiu, hci, hmatch]
      · rw [hiu] at hwf2
        have hu : url ≠ "" := by
          intro h
          rw [h] at hwf2
          simp at hwf2
        have hdev : get_icon_from_device s = .ok (some url, set_cached_icon s url) := by
          simp [get_icon_from_device, hms, himg, hcs, hiu, hu]
        rw [hicon _ hdev]
        simp only [ne_eq, hu, not_false_iff, if_true]
        simp [art_url_claim_resolver, himg, hcs, hiu, set_cached_icon, hu]
  · have hu : u ≠ "" := hwf1 u (by rw [himg]; exact List.mem_cons_self u rest)
    have hdev : get_icon_from_device s = .ok (some u, set_cached_icon s u) := by
      simp [get_icon_from_device, hms, himg]
    rw [hicon _ hdev]
    simp only [ne_eq, hu, not_false_iff, if_true]
    simp [art_url_claim_resolver, himg, set_cached_icon, hu]

theorem get_art_url_priority_and_cache_witness :
    c7_scenario.cached_icon = some ⟨"u1", some "A", "Song1"⟩ ∧
    c7_scenario.app_id = some "B" ∧
    primary_title c7_scenario = "Song1" ∧
    get_art_url c7_scenario = .ok (DEFAULT_THUMB, c7_scenario) := by
  refine ⟨rfl, rfl, rfl, ?_⟩
  have h := get_art_url_priority_and_cache c7_scenario { title := some "Song1" } rfl (by rfl)
  rw [h]
  rfl

lemma titles_claim_spec_ne_nil (frags : List (Option String)) :
    titles_claim_spec frags ≠ [] := by
  by_cases h : frags.filterMap (fun o => o.bind fun t => if t = "" then none else some t) = []
  · simp [titles_claim_spec, h]
  · simp [titles_claim_spec, h, List.take_eq_nil_iff, MAX_TITLES]

lemma append_title_eq (l : List String) (o : Option String) :
    append_title l o = l ++ frag_filter o := by
  rcases o with _ | t
  · simp [append_title, frag_filter]
  · by_cases h : t = "" <;> simp [append_title, frag_filter, h]

lemma frag_filter_eq_toList (o : Option String) :
    frag_filter o = (o.bind fun t => if t = "" then none else some t).toList := by
  rcases o with _ | t
  · rfl
  · by_cases h : t = "" <;> simp [frag_filter, h]

lemma filterMap_toList_flatten (g : Option String → Option String)
    (l : List (Option String)) :
    l.filterMap g = (l.map fun o => (g o).toList).flatten := by
  induction l with
  | nil => rfl
  | cons a t ih =>
    rcases h : g a with _ | b <;> simp [List.filterMap_cons, h, ih]

lemma build6_eq_spec (f1 f2 f3 f4 f5 f6 : Option String) :
    (let raw := append_title (append_title (append_title (append_title (append_title
      (append_title [] f1) f2) f3) f4) f5) f6;
     (if raw = [] then raw ++ [TITLE] else raw).take MAX_TITLES) =
    titles_claim_spec [f1, f2, f3, f4, f5, f6] := by
  have hfm : ([f1, f2, f3, f4, f5, f6].filterMap fun o =>
        o.bind fun t => if t = "" then none else some t) =
      frag_filter f1 ++ (frag_filter f2 ++ (frag_filter f3 ++ (frag_filter f4 ++
        (frag_filter f5 ++ frag_filter f6)))) := by
    rw [filterMap_toList_flatten]
    simp [← frag_filter_eq_toList]
  simp only [titles_claim_spec, hfm, append_title_eq, List.nil_append, List.append_assoc]
  by_cases hraw : frag_filter f1 ++ (frag_filter f2 ++ (frag_filter f3 ++ (frag_filter f4 ++
      (frag_filter f5 ++ frag_filter f6)))) = []
  · simp only [List.append_eq_nil] at hraw
    obtain ⟨h1, h2, h3, h4, h5, h6⟩ := hraw
    simp [h1, h2, h3, h4, h5, h6, MAX_TITLES]
  · simp [hraw]

/-- Claim C8: the title list is built in the fixed priority order (media
title, series title, embedded subtitle, artist, album, application display
name), absent fragments skipped without padding, truncated to three, with
the fixed product-name literal as sole entry when every source is absent;
the result is never empty and the `Titles` tuple is its first three
entries. -/
theorem titles_match_claim_spec (s : DeviceWrapper) :
    titles_list s = titles_claim_spec
      [media_controller_title s, s.media_status.bind MediaStatus.series_title,
       get_subtitle s, s.media_status.bind MediaStatus.artist,
       s.media_status.bind MediaStatus.album_name, s.app_display_name] ∧
    titles_list s ≠ [] ∧
    titles s = ((titles_list s).get? 0, (titles_list s).get? 1, (titles_list s).get? 2) := by
  have main : titles_list s = titles_claim_spec
      [media_controller_title s, s.media_status.bind MediaStatus.series_title,
       get_subtitle s, s.media_status.bind MediaStatus.artist,
       s.media_status.bind MediaStatus.album_name, s.app_display_name] := by
    rcases hms : s.media_status with _ | status
    · have := build6_eq_spec (media_controller_title s) none (get_subtitle s) none none
        s.app_display_name
      simp only [titles_list, hms] at this ⊢
      simpa [append_title] using this
    · have := build6_eq_spec (media_controller_title s) status.series_title (get_subtitle s)
        status.artist status.album_name s.app_display_name
      simp only [titles_list, hms] at this ⊢
      simpa using this
  refine ⟨main, ?_, rfl⟩
  rw [main]
  exact titles_claim_spec_ne_nil _
